import Mathlib

/-!
Verification of the `klim-searcher` backend (`app.py`): a Flask app with a
sentiment classifier, a news query handler (`get_news`), a spreadsheet
export handler (`download_selected`), and a static asset route (`index`).

The shallow embedding below translates the handlers into pure Lean
functions.  External collaborators (the RSS fetcher `fetch_rss_news`, the
sentiment scorer `SnowNLP(...).sentiments`, `datetime.strptime`,
`date.today()` and the pandas/xlsxwriter serialization) are passed in as
explicit function arguments; dates are represented as integer day numbers,
so `timedelta(days=7)` becomes subtraction by 7.  Rational numbers stand
for the float sentiment scores, with the thresholds 0.65 and 0.35 written
as `mkRat 65 100` and `mkRat 35 100` so that they evaluate by `decide`.
-/

/-- Sentiment label classification of a continuous score, embedding
`classify_sentiment` from `app.py` (thresholds 0.65 = 65/100 and
0.35 = 35/100).  The three labels are the strings "正面" (the positive
label), "負面" (the negative label) and "中性" (the neutral label). -/
def classify_sentiment (score : ℚ) : String :=
  if score > mkRat 65 100 then "正面"
  else if score < mkRat 35 100 then "負面"
  else "中性"

/-- An article as returned by the fetch collaborator `fetch_rss_news`:
a dict with keys 來源 (source), 標題 (title), link and publish time. -/
structure Article where
  source : String
  title : String
  link : String
  pubDate : String
deriving DecidableEq

/-- An article after `get_news` has attached the derived sentiment field
`情感` (`item["情感"] = classify_sentiment(...)` mutates the dict in
place). -/
structure AnnotatedArticle where
  source : String
  title : String
  link : String
  pubDate : String
  sentiment : String
deriving DecidableEq

/-- The query parameters `request.args` of `get_news`; `none` means the
parameter is absent from the request. -/
structure QueryArgs where
  keyword : Option String
  logic : Option String
  start_date : Option String
  end_date : Option String

/-- A Python/JSON value, used for the untyped body of the export
handler (`request.get_json()`). -/
inductive PyVal where
  | null : PyVal
  | bool (b : Bool) : PyVal
  | int (n : ℤ) : PyVal
  | str (s : String) : PyVal
  | list (xs : List PyVal) : PyVal
  | dict (kvs : List (String × PyVal)) : PyVal

/-- Python truthiness of a value: `None`, `False`, `0`, `""`, `[]` and
`{}` are falsy, everything else is truthy. -/
def pyTruthyVal : PyVal → Bool
  | .null => false
  | .bool b => b
  | .int n => n ≠ 0
  | .str s => s ≠ ""
  | .list xs => !xs.isEmpty
  | .dict kvs => !kvs.isEmpty

/-- Python `isinstance(v, list)`. -/
def isPyList : PyVal → Bool
  | .list _ => true
  | _ => false

/-- Python `isinstance(v, dict)`. -/
def isPyDict : PyVal → Bool
  | .dict _ => true
  | _ => false

/-- The items of a Python list value. -/
def pyListItems : PyVal → List PyVal
  | .list xs => xs
  | _ => []

/-- Python truthiness of an optional query-parameter string
(`request.args.get` returns `None` when the parameter is absent, and
`None` and `""` are falsy). -/
def pyTruthy : Option String → Bool
  | none => false
  | some s => s ≠ ""

/-- A calendar date as used by `datetime.now()` for the export
filename. -/
structure PyDate where
  year : ℕ
  month : ℕ
  day : ℕ

/-- Zero-pad the decimal representation of `n` to width `w`, as Python
`strftime` does for `%Y`, `%m` and `%d`. -/
def padNum (w : ℕ) (n : ℕ) : String :=
  let s := toString n
  String.mk (List.replicate (w - s.length) '0') ++ s

/-- Python `datetime.now().strftime("%Y%m%d")`. -/
def strftimeY8 (d : PyDate) : String :=
  padNum 4 d.year ++ padNum 2 d.month ++ padNum 2 d.day

/-- The HTTP responses the three handlers can produce.  `jsonError s e`
models the JSON body `{"success": false, "error": e}` returned with HTTP
status `s`; `newsOk` models the 200 JSON body
`{"success": true, "count": ..., "data": ..., "stats": ...}`; `fileOk`
models a `send_file` binary response (status, content type, the
`as_attachment` flag, the `download_name` and the bytes); `textPage`
models a plain string body with an explicit status; `staticFile f`
models `send_from_directory(DIST_FOLDER, f)`. -/
inductive Response where
  | newsOk (count : ℕ) (data : List AnnotatedArticle) (stats : List (String × ℕ)) : Response
  | jsonError (status : ℕ) (error : String) : Response
  | fileOk (status : ℕ) (mimetype : String) (asAttachment : Bool)
      (downloadName : String) (content : List ℕ) : Response
  | textPage (status : ℕ) (body : String) : Response
  | staticFile (file : String) : Response

/-- Keep the first occurrence of each string, dropping later duplicates:
the key order of a Python dict / `collections.Counter` built by counting
a sequence. -/
def dedupKeepFirst : List String → List String
  | [] => []
  | a :: rest => a :: (dedupKeepFirst rest).filter (fun s => s ≠ a)

/-- The items of `collections.Counter(l)`: each distinct element of `l`,
in first-encountered order, paired with its number of occurrences. -/
def pyCounterItems (l : List String) : List (String × ℕ) :=
  (dedupKeepFirst l).map (fun s => (s, l.count s))

/-- Insert an entry into a list that is sorted by descending count,
placing it after every entry of count ≥ its own (the insertion step of a
stable descending sort by count). -/
def insertDesc (x : String × ℕ) : List (String × ℕ) → List (String × ℕ)
  | [] => [x]
  | y :: ys => if y.2 < x.2 then x :: y :: ys else y :: insertDesc x ys

/-- `Counter.most_common()`: the counter items sorted by descending
count; CPython implements it as `sorted(items, key=itemgetter(1),
reverse=True)`, a stable sort, so entries with equal counts stay in
first-encountered order.  Embedded as a stable insertion sort. -/
def most_common (items : List (String × ℕ)) : List (String × ℕ) :=
  items.foldl (fun acc x => insertDesc x acc) []

/-- Step 4 of `get_news`: `stats = {}`, then if the news list is
non-empty, `stats = dict(Counter(item["來源"] for item in news_list)
.most_common())`. -/
def computeStats (anns : List AnnotatedArticle) : List (String × ℕ) :=
  if anns.isEmpty then []
  else most_common (pyCounterItems (anns.map (fun a => a.source)))

/-- The sentiment-annotation loop of `get_news`: for each item, score the
標題 (title) with the sentiment collaborator and attach
`classify_sentiment` of the score as the 情感 field; the first scoring
exception aborts the loop. -/
def annotateAll (score : String → Except String ℚ) :
    List Article → Except String (List AnnotatedArticle)
  | [] => .ok []
  | a :: rest =>
    match score a.title with
    | .error e => .error e
    | .ok sc =>
      match annotateAll score rest with
      | .error e => .error e
      | .ok tail => .ok (⟨a.source, a.title, a.link, a.pubDate, classify_sentiment sc⟩ :: tail)

/-- The part of `get_news` after the fetch call: annotate every article
with a sentiment label, compute the source statistics and produce the
success JSON; any exception is caught and returned as a 500 JSON error
with the exception message. -/
def handleFetch (res : Except String (List Article))
    (score : String → Except String ℚ) : Response :=
  match res with
  | .error msg => .jsonError 500 msg
  | .ok news =>
    match annotateAll score news with
    | .error msg => .jsonError 500 msg
    | .ok anns => .newsOk anns.length anns (computeStats anns)

/-- Step 2 of `get_news`: `if start_date_str and end_date_str:` parse
both with `datetime.strptime(_, "%Y-%m-%d").date()` (the `parse`
collaborator), `else` use the default window
`end_date = date.today(); start_date = end_date - timedelta(days=7)`. -/
def effectiveWindow (sStr eStr : Option String) (today : ℤ)
    (parse : String → Except String ℤ) : Except String (ℤ × ℤ) :=
  if pyTruthy sStr && pyTruthy eStr then
    match parse (sStr.getD "") with
    | .error m => .error m
    | .ok s =>
      match parse (eStr.getD "") with
      | .error m => .error m
      | .ok e => .ok (s, e)
  else
    .ok (today - 7, today)

/-- The `/api/news` handler `get_news`: read `keyword` (default "台灣")
and `logic` (default "OR") from the query parameters, compute the date
window, call the fetch collaborator `fetch_rss_news(keyword, start_date,
end_date, logic)` and hand its result to the annotation/stats pipeline;
any exception yields a 500 JSON error. -/
def get_news (args : QueryArgs) (today : ℤ)
    (parse : String → Except String ℤ)
    (fetch_rss_news : String → ℤ → ℤ → String → Except String (List Article))
    (score : String → Except String ℚ) : Response :=
  let keyword := args.keyword.getD "台灣"
  let logic := args.logic.getD "OR"
  match effectiveWindow args.start_date args.end_date today parse with
  | .error msg => .jsonError 500 msg
  | .ok (s, e) => handleFetch (fetch_rss_news keyword s e logic) score

/-- The `/api/download-selected` handler `download_selected`: the JSON
body (`none` when the request carries no JSON) is rejected with a 400
JSON error if it is falsy or not a list; otherwise the rows are handed
to the pandas/xlsxwriter serialization collaborator (`toExcel`), whose
failure is caught as a 500 JSON error and whose output is returned via
`send_file` with the xlsx mimetype, `as_attachment=True` and the
date-stamped download name. -/
def download_selected (body : Option PyVal) (today : PyDate)
    (toExcel : List PyVal → Except String (List ℕ)) : Response :=
  let selected_news := body.getD PyVal.null
  if !pyTruthyVal selected_news || !isPyList selected_news then
    .jsonError 400 "沒有提供選中的新聞或格式錯誤"
  else
    match toExcel (pyListItems selected_news) with
    | .error e => .jsonError 500 e
    | .ok bytes =>
      .fileOk 200 "application/vnd.openxmlformats-officedocument.spreadsheetml.sheet"
        true ("selected_news_" ++ strftimeY8 today ++ ".xlsx") bytes

/-- The `/` route `index`: if the frontend build artifact directory
`DIST_FOLDER` does not exist (`distExists = false`), return the fixed
instructional message with status 404; otherwise serve
`send_from_directory(DIST_FOLDER, "index.html")`. -/
def index (distExists : Bool) : Response :=
  if !distExists then
    .textPage 404
      "前端檔案尚未建置 (frontend/dist not found)。請在 \x27frontend\x27 目錄下執行 \x27npm run build\x27。"
  else
    .staticFile "index.html"

/-- A concrete article used to instantiate the theorems below. -/
def article0 : Article := ⟨"X", "good news", "http://x", "2024-01-01"⟩

/-- A date-parsing collaborator that always fails (never reached in the
witnesses that use it). -/
def parse0 : String → Except String ℤ := fun _ => .error "unused"

/-- A fetch collaborator returning no articles. -/
def fetch0 : String → ℤ → ℤ → String → Except String (List Article) :=
  fun _ _ _ _ => .ok []

/-- A fetch collaborator returning exactly `article0`. -/
def fetchOne : String → ℤ → ℤ → String → Except String (List Article) :=
  fun _ _ _ _ => .ok [article0]

/-- A fetch collaborator that fails with the keyword it was given, so
the keyword passed to the fetch collaborator becomes observable in the
response. -/
def fetchProbe : String → ℤ → ℤ → String → Except String (List Article) :=
  fun k _ _ _ => .error k

/-- A sentiment collaborator scoring every title 0. -/
def score0 : String → Except String ℚ := fun _ => .ok 0

/-- A sentiment collaborator scoring every title 0.9. -/
def score1 : String → Except String ℚ := fun _ => .ok (mkRat 9 10)

/-- A sentiment collaborator that raises on every title. -/
def scoreFail : String → Except String ℚ := fun _ => .error "boom"

/-- A serialization collaborator producing the byte `[0]`. -/
def toExcel0 : List PyVal → Except String (List ℕ) := fun _ => .ok [0]

/-- A concrete server date. -/
def date0 : PyDate := ⟨2026, 10, 12⟩

/-- A concrete export row `{"title": "A", "source": "X"}`. -/
def row0 : PyVal := PyVal.dict [("title", PyVal.str "A"), ("source", PyVal.str "X")]

/-- Restate `classify_sentiment` with its thresholds written as the
decimal literals 0.65 and 0.35 of the source. -/
lemma classify_eq (s : ℚ) :
    classify_sentiment s =
      if s > 0.65 then "正面" else if s < 0.35 then "負面" else "中性" := by
  unfold classify_sentiment
  rw [show (mkRat 65 100 : ℚ) = 0.65 by rw [Rat.mkRat_eq_div]; norm_num,
    show (mkRat 35 100 : ℚ) = 0.35 by rw [Rat.mkRat_eq_div]; norm_num]

/-- C1: for every score `s`, `classify_sentiment` returns the positive
label "正面" iff `s > 0.65`, the negative label "負面" iff `s < 0.35`,
and the neutral label "中性" otherwise; the boundary scores 0.65 and
0.35 are both classified neutral. -/
theorem classify_sentiment_spec (s : ℚ) :
    (classify_sentiment s = "正面" ↔ s > 0.65) ∧
    (classify_sentiment s = "負面" ↔ s < 0.35) ∧
    (classify_sentiment s = "中性" ↔ ¬s > 0.65 ∧ ¬s < 0.35) ∧
    classify_sentiment 0.65 = "中性" ∧ classify_sentiment 0.35 = "中性" := by
  refine ⟨?_, ?_, ?_, ?_, ?_⟩
  · rw [classify_eq]
    split_ifs with h1 h2
    · exact iff_of_true rfl h1
    · exact iff_of_false (by decide) h1
    · exact iff_of_false (by decide) h1
  · rw [classify_eq]
    split_ifs with h1 h2
    · exact iff_of_false (by decide) (by rw [not_lt]; linarith)
    · exact iff_of_true rfl h2
    · exact iff_of_false (by decide) h2
  · rw [classify_eq]
    split_ifs with h1 h2
    · exact iff_of_false (by decide) (fun h => h.1 h1)
    · exact iff_of_false (by decide) (fun h => h.2 h2)
    · exact iff_of_true rfl ⟨h1, h2⟩
  · rw [classify_eq, if_neg (by norm_num), if_neg (by norm_num)]
  · rw [classify_eq, if_neg (by norm_num), if_neg (by norm_num)]

/-- C10: the classifier is total on every rational score, not only on
[0,1]: it always returns one of the three labels, any `s > 1` is
classified positive and any `s < 0` negative. -/
theorem classify_sentiment_total (s : ℚ) :
    (classify_sentiment s = "正面" ∨ classify_sentiment s = "中性" ∨
      classify_sentiment s = "負面") ∧
    (s > 1 → classify_sentiment s = "正面") ∧
    (s < 0 → classify_sentiment s = "負面") := by
  rw [classify_eq]
  refine ⟨?_, ?_, ?_⟩
  · split_ifs <;> simp
  · intro h
    rw [if_pos (by linarith)]
  · intro h
    rw [if_neg (by rw [not_lt]; linarith), if_pos (by linarith)]

/-- Witness for C10 at the concrete scores 2 and −1. -/
theorem classify_sentiment_total_witness :
    classify_sentiment (mkRat 2 1) = "正面" ∧
    classify_sentiment (mkRat (-1) 1) = "負面" :=
  ⟨(classify_sentiment_total (mkRat 2 1)).2.1 (by decide),
   (classify_sentiment_total (mkRat (-1) 1)).2.2 (by decide)⟩

/-- C2: whenever `start_date` or `end_date` is absent, the effective
window is `[today − 7, today]`, recomputed from the `today` of the
current call, and `get_news` calls the fetch collaborator with exactly
that window. -/
theorem default_window_spec (args : QueryArgs) (today : ℤ)
    (parse : String → Except String ℤ)
    (fetch_rss_news : String → ℤ → ℤ → String → Except String (List Article))
    (score : String → Except String ℚ)
    (h : args.start_date = none ∨ args.end_date = none) :
    effectiveWindow args.start_date args.end_date today parse =
      .ok (today - 7, today) ∧
    get_news args today parse fetch_rss_news score =
      handleFetch (fetch_rss_news (args.keyword.getD "台灣") (today - 7) today
        (args.logic.getD "OR")) score := by
  have hw : effectiveWindow args.start_date args.end_date today parse =
      .ok (today - 7, today) := by
    unfold effectiveWindow
    rcases h with h | h <;> rw [h] <;> simp [pyTruthy]
  refine ⟨hw, ?_⟩
  unfold get_news
  rw [hw]

/-- Witness for C2 with `start_date` absent and `end_date` present. -/
theorem default_window_spec_witness :
    effectiveWindow none (some "2024-01-01") 0 parse0 = .ok (0 - 7, 0) ∧
    get_news ⟨none, none, none, some "2024-01-01"⟩ 0 parse0 fetch0 score0 =
      handleFetch (fetch0 "台灣" (0 - 7) 0 "OR") score0 :=
  default_window_spec ⟨none, none, none, some "2024-01-01"⟩ 0 parse0 fetch0
    score0 (Or.inl rfl)

/-- C8 fails on the code: with no `keyword` parameter, the keyword
passed to the fetch collaborator (made observable by `fetchProbe`,
which fails with its keyword argument) is "台灣", not "Taiwan". -/
theorem default_keyword_counterexample :
    get_news ⟨none, none, none, none⟩ 0 parse0 fetchProbe score0 =
      Response.jsonError 500 "台灣" ∧ ("台灣" : String) ≠ "Taiwan" :=
  ⟨rfl, by decide⟩

/-- C8 amended: when `keyword` is absent the keyword passed to the fetch
collaborator is "台灣" (the Chinese rendering of Taiwan), and when
`logic` is absent the logic passed is "OR". -/
theorem default_params_amended (args : QueryArgs) (today : ℤ)
    (parse : String → Except String ℤ)
    (fetch_rss_news : String → ℤ → ℤ → String → Except String (List Article))
    (score : String → Except String ℚ) (s e : ℤ)
    (hw : effectiveWindow args.start_date args.end_date today parse = .ok (s, e)) :
    (args.keyword = none →
      get_news args today parse fetch_rss_news score =
        handleFetch (fetch_rss_news "台灣" s e (args.logic.getD "OR")) score) ∧
    (args.logic = none →
      get_news args today parse fetch_rss_news score =
        handleFetch (fetch_rss_news (args.keyword.getD "台灣") s e "OR") score) := by
  constructor <;> intro h <;> unfold get_news <;> rw [hw, h] <;> rfl

/-- Witness for amended C8 with both parameters absent. -/
theorem default_params_amended_witness :
    get_news ⟨none, none, none, none⟩ 0 parse0 fetch0 score0 =
      handleFetch (fetch0 "台灣" (0 - 7) 0 "OR") score0 :=
  (default_params_amended ⟨none, none, none, none⟩ 0 parse0 fetch0 score0
    (0 - 7) 0 rfl).1 rfl

/-- C4: a missing, non-list or falsy request body (for example the empty
list) makes `download_selected` return the 400 JSON error
`{"success": false, "error": ...}`, and in particular never a 500. -/
theorem download_invalid_400 (body : Option PyVal) (today : PyDate)
    (toExcel : List PyVal → Except String (List ℕ))
    (h : pyTruthyVal (body.getD PyVal.null) = false ∨
      isPyList (body.getD PyVal.null) = false) :
    download_selected body today toExcel =
      .jsonError 400 "沒有提供選中的新聞或格式錯誤" ∧
    ∀ m, download_selected body today toExcel ≠ .jsonError 500 m := by
  have heq : download_selected body today toExcel =
      .jsonError 400 "沒有提供選中的新聞或格式錯誤" := by
    unfold download_selected
    rw [if_pos (by rcases h with h | h <;> simp [h])]
  refine ⟨heq, fun m hne => ?_⟩
  rw [heq] at hne
  simp at hne

/-- Witness for C4 at the empty-list body `[]`. -/
theorem download_invalid_400_witness :
    download_selected (some (PyVal.list [])) date0 toExcel0 =
      .jsonError 400 "沒有提供選中的新聞或格式錯誤" ∧
    ∀ m, download_selected (some (PyVal.list [])) date0 toExcel0 ≠
      .jsonError 500 m :=
  download_invalid_400 (some (PyVal.list [])) date0 toExcel0 (Or.inl rfl)

/-- C5: a body that is a non-empty list of objects whose serialization
succeeds yields a 200 binary attachment with the spreadsheet mimetype
and download name `selected_news_<YYYYMMDD>.xlsx` built from the
server's current date. -/
theorem download_valid_200 (body : Option PyVal) (today : PyDate)
    (toExcel : List PyVal → Except String (List ℕ))
    (rows : List PyVal) (bytes : List ℕ)
    (hb : body = some (PyVal.list rows)) (hne : rows ≠ [])
    (hobj : ∀ r ∈ rows, isPyDict r = true)
    (hx : toExcel rows = .ok bytes) :
    download_selected body today toExcel =
      .fileOk 200 "application/vnd.openxmlformats-officedocument.spreadsheetml.sheet"
        true ("selected_news_" ++ strftimeY8 today ++ ".xlsx") bytes := by
  subst hb
  rcases rows with _ | ⟨r, rs⟩
  · exact absurd rfl hne
  · unfold download_selected
    rw [if_neg (by simp [pyTruthyVal, isPyList])]
    simp only [Option.getD_some, pyListItems]
    rw [hx]

/-- Witness for C5 at the body `[{"title": "A", "source": "X"}]` and the
server date 2026-10-12. -/
theorem download_valid_200_witness :
    download_selected (some (PyVal.list [row0])) date0 toExcel0 =
      .fileOk 200 "application/vnd.openxmlformats-officedocument.spreadsheetml.sheet"
        true "selected_news_20261012.xlsx" [0] :=
  download_valid_200 (some (PyVal.list [row0])) date0 toExcel0 [row0] [0]
    rfl (by simp) (by intro r hr; simp at hr; rw [hr]; rfl) rfl

/-- If some article's title makes the sentiment collaborator raise, the
annotation loop aborts with the exception. -/
lemma annotateAll_error (score : String → Except String ℚ) :
    ∀ news : List Article, (∃ a ∈ news, ∃ msg, score a.title = .error msg) →
      ∃ err, annotateAll score news = .error err := by
  intro news h
  induction news with
  | nil => rcases h with ⟨a, ha, _⟩; cases ha
  | cons a rest ih =>
    rcases h with ⟨b, hb, msg, hmsg⟩
    cases hsc : score a.title with
    | error e => exact ⟨e, by simp [annotateAll, hsc]⟩
    | ok sc =>
      have hrest : ∃ b ∈ rest, ∃ m, score b.title = .error m := by
        rcases List.mem_cons.1 hb with rfl | hb2
        · rw [hsc] at hmsg; cases hmsg
        · exact ⟨b, hb2, msg, hmsg⟩
      rcases ih hrest with ⟨err, herr⟩
      exact ⟨err, by simp [annotateAll, hsc, herr]⟩

/-- C6: a sentiment-scoring failure on any one article aborts the whole
news query with a single 500 JSON error object instead of a partial
payload: no `newsOk` response is produced. -/
theorem no_partial_results (args : QueryArgs) (today : ℤ)
    (parse : String → Except String ℤ)
    (fetch_rss_news : String → ℤ → ℤ → String → Except String (List Article))
    (score : String → Except String ℚ) (s e : ℤ) (news : List Article)
    (hw : effectiveWindow args.start_date args.end_date today parse = .ok (s, e))
    (hf : fetch_rss_news (args.keyword.getD "台灣") s e (args.logic.getD "OR") =
      .ok news)
    (hs : ∃ a ∈ news, ∃ msg, score a.title = .error msg) :
    (∃ err, get_news args today parse fetch_rss_news score =
      .jsonError 500 err) ∧
    ∀ c d st, get_news args today parse fetch_rss_news score ≠
      .newsOk c d st := by
  rcases annotateAll_error score news hs with ⟨err, herr⟩
  have heq : get_news args today parse fetch_rss_news score =
      .jsonError 500 err := by
    unfold get_news
    rw [hw]
    show handleFetch (fetch_rss_news (args.keyword.getD "台灣") s e
      (args.logic.getD "OR")) score = _
    rw [hf]
    simp [handleFetch, herr]
  exact ⟨⟨err, heq⟩, fun c d st hne => by rw [heq] at hne; cases hne⟩

/-- Witness for C6: one fetched article whose title always makes the
scorer raise. -/
theorem no_partial_results_witness :
    (∃ err, get_news ⟨none, none, none, none⟩ 0 parse0 fetchOne scoreFail =
      .jsonError 500 err) ∧
    ∀ c d st, get_news ⟨none, none, none, none⟩ 0 parse0 fetchOne scoreFail ≠
      .newsOk c d st :=
  no_partial_results ⟨none, none, none, none⟩ 0 parse0 fetchOne scoreFail
    (0 - 7) 0 [article0] rfl rfl ⟨article0, by simp, "boom", rfl⟩

/-- C9: with the frontend build artifact directory absent, the root
route answers 404 with the fixed build-instruction message; with the
directory present it serves `index.html` from it. -/
theorem index_spec :
    index false = .textPage 404
      "前端檔案尚未建置 (frontend/dist not found)。請在 \x27frontend\x27 目錄下執行 \x27npm run build\x27。" ∧
    index true = .staticFile "index.html" :=
  ⟨rfl, rfl⟩

/-- Inserting an entry adds its count to the total of the counts. -/
lemma sum_insertDesc (x : String × ℕ) : ∀ l : List (String × ℕ),
    ((insertDesc x l).map Prod.snd).sum = x.2 + (l.map Prod.snd).sum := by
  intro l
  induction l with
  | nil => simp [insertDesc]
  | cons y ys ih =>
    unfold insertDesc
    split_ifs with h
    · simp
    · simp [ih]
      omega

/-- Sorting the counter items preserves the total of the counts. -/
lemma sum_most_common (items : List (String × ℕ)) :
    ((most_common items).map Prod.snd).sum = (items.map Prod.snd).sum := by
  have H : ∀ l acc : List (String × ℕ),
      ((l.foldl (fun a x => insertDesc x a) acc).map Prod.snd).sum =
        (acc.map Prod.snd).sum + (l.map Prod.snd).sum := by
    intro l
    induction l with
    | nil => simp
    | cons y ys ih =>
      intro acc
      rw [List.foldl_cons, ih, sum_insertDesc]
      simp
      omega
  simpa [most_common] using H items []

/-- Dropping later duplicates does not change membership. -/
lemma mem_dedupKeepFirst : ∀ (l : List String) (a : String),
    a ∈ dedupKeepFirst l ↔ a ∈ l := by
  intro l a
  induction l with
  | nil => simp [dedupKeepFirst]
  | cons b rest ih =>
    by_cases hab : a = b
    · subst hab
      simp [dedupKeepFirst]
    · simp [dedupKeepFirst, List.mem_filter, hab, ih]

/-- The list of first occurrences has no duplicates. -/
lemma nodup_dedupKeepFirst : ∀ l : List String, (dedupKeepFirst l).Nodup := by
  intro l
  induction l with
  | nil => simp [dedupKeepFirst]
  | cons b rest ih =>
    rw [show dedupKeepFirst (b :: rest) =
      b :: (dedupKeepFirst rest).filter (fun s => s ≠ b) from rfl]
    refine List.nodup_cons.2 ⟨?_, ih.filter _⟩
    intro hmem
    have := (List.mem_filter.1 hmem).2
    simp at this

/-- Splitting the sum over a duplicate-free list at one element. -/
lemma sum_filter_ne (f : String → ℕ) (a : String) :
    ∀ d : List String, d.Nodup →
      (d.map f).sum = (if a ∈ d then f a else 0) +
        ((d.filter (fun s => s ≠ a)).map f).sum := by
  intro d hd
  induction d with
  | nil => simp
  | cons b rest ih =>
    have hb : b ∉ rest := (List.nodup_cons.1 hd).1
    have hrest := ih ((List.nodup_cons.1 hd).2)
    by_cases hab : a = b
    · subst hab
      have hfull : rest.filter (fun s => s ≠ a) = rest :=
        List.filter_eq_self.2 (fun x hx => by
          simp only [decide_eq_true_eq]
          exact fun hxa => hb (hxa ▸ hx))
      rw [List.map_cons, List.sum_cons, if_pos (List.mem_cons_self a rest),
        List.filter_cons_of_neg (by simp), hfull]
    · have hmem : (a ∈ b :: rest) = (a ∈ rest) := by
        simp [List.mem_cons, hab]
      rw [List.filter_cons_of_pos
        (by simpa using (show b ≠ a from fun h => hab h.symm))]
      by_cases har : a ∈ rest <;>
        simp [hmem, har, hrest] <;> omega

/-- Summing each distinct element's occurrence count gives the length of
the list. -/
lemma sum_counts : ∀ l : List String,
    ((dedupKeepFirst l).map (fun s => l.count s)).sum = l.length := by
  intro l
  induction l with
  | nil => rfl
  | cons a t ih =>
    rw [show dedupKeepFirst (a :: t) =
      a :: (dedupKeepFirst t).filter (fun s => s ≠ a) from rfl]
    rw [List.map_cons, List.sum_cons]
    have hmapeq : ((dedupKeepFirst t).filter (fun s => s ≠ a)).map
          (fun s => (a :: t).count s) =
        ((dedupKeepFirst t).filter (fun s => s ≠ a)).map (fun s => t.count s) := by
      apply List.map_congr_left
      intro s hs
      have hne : s ≠ a := by simpa using (List.mem_filter.1 hs).2
      rw [List.count_cons]
      simp [Ne.symm hne]
    rw [hmapeq]
    have hfilter := sum_filter_ne (fun s => t.count s) a
      (dedupKeepFirst t) (nodup_dedupKeepFirst t)
    rw [ih] at hfilter
    simp only [] at hfilter
    have hcle := List.count_le_length a t
    have hcnt : (a :: t).count a = t.count a + 1 := by
      rw [List.count_cons]; simp
    rw [hcnt, List.length_cons]
    by_cases hmem : a ∈ t
    · rw [if_pos ((mem_dedupKeepFirst t a).2 hmem)] at hfilter
      omega
    · rw [if_neg (fun hc => hmem ((mem_dedupKeepFirst t a).1 hc))] at hfilter
      have hz : t.count a = 0 := List.count_eq_zero.2 hmem
      omega

/-- The counts recorded in `Counter(l).items()` sum to the length of
`l`. -/
lemma sum_pyCounterItems (l : List String) :
    ((pyCounterItems l).map Prod.snd).sum = l.length := by
  unfold pyCounterItems
  rw [List.map_map]
  exact sum_counts l

/-- C3: on any non-empty fetched article list whose annotation succeeds,
the query response is the full success payload and the source statistics
sum to `count`, which is the length of the data list. -/
theorem stats_sum_eq_count (news : List Article)
    (score : String → Except String ℚ) (anns : List AnnotatedArticle)
    (h : annotateAll score news = .ok anns) (hne : news ≠ []) :
    handleFetch (.ok news) score =
      .newsOk anns.length anns (computeStats anns) ∧
    ((computeStats anns).map Prod.snd).sum = anns.length := by
  constructor
  · have hm : handleFetch (.ok news) score =
        match annotateAll score news with
        | .error msg => Response.jsonError 500 msg
        | .ok anns => Response.newsOk anns.length anns (computeStats anns) := rfl
    rw [hm, h]
  · rcases anns with _ | ⟨a, as⟩
    · rfl
    · show ((most_common (pyCounterItems
        ((a :: as).map (fun x => x.source)))).map Prod.snd).sum = (a :: as).length
      rw [sum_most_common, sum_pyCounterItems, List.length_map]

/-- Witness for C3 at a single fetched article. -/
theorem stats_sum_eq_count_witness :
    handleFetch (.ok [article0]) score1 =
      .newsOk 1 [⟨"X", "good news", "http://x", "2024-01-01", "正面"⟩] [("X", 1)] ∧
    (([("X", 1)] : List (String × ℕ)).map Prod.snd).sum = 1 :=
  stats_sum_eq_count [article0] score1
    [⟨"X", "good news", "http://x", "2024-01-01", "正面"⟩] rfl (by simp)

/-- Membership after an insertion step: either the inserted entry or an
original one. -/
lemma mem_insertDesc (x : String × ℕ) :
    ∀ (l : List (String × ℕ)) (z : String × ℕ),
      z ∈ insertDesc x l → z = x ∨ z ∈ l := by
  intro l
  induction l with
  | nil =>
    intro z hz
    simp [insertDesc] at hz
    exact Or.inl hz
  | cons y ys ih =>
    intro z hz
    unfold insertDesc at hz
    split_ifs at hz with h
    · rcases List.mem_cons.1 hz with rfl | hz2
      · exact Or.inl rfl
      · exact Or.inr hz2
    · rcases List.mem_cons.1 hz with rfl | hz2
      · exact Or.inr (List.mem_cons_self _ _)
      · rcases ih z hz2 with h1 | h1
        · exact Or.inl h1
        · exact Or.inr (List.mem_cons_of_mem _ h1)

/-- Stable insertion: inserting an entry that originally came after every
entry of `l` into a descending-by-count list keeps the list descending,
with ties still in original order `R`. -/
lemma pairwise_insertDesc (R : (String × ℕ) → (String × ℕ) → Prop)
    (x : String × ℕ) :
    ∀ l : List (String × ℕ),
      l.Pairwise (fun p q => q.2 ≤ p.2 ∧ (p.2 = q.2 → R p q)) →
      (∀ y ∈ l, y.2 = x.2 → R y x) →
      (insertDesc x l).Pairwise (fun p q => q.2 ≤ p.2 ∧ (p.2 = q.2 → R p q)) := by
  intro l
  induction l with
  | nil =>
    intro _ _
    simp [insertDesc]
  | cons y ys ih =>
    intro hp hall
    rcases List.pairwise_cons.1 hp with ⟨hy, hys⟩
    unfold insertDesc
    split_ifs with h
    · refine List.pairwise_cons.2 ⟨?_, hp⟩
      intro z hz
      rcases List.mem_cons.1 hz with rfl | hz2
      · exact ⟨le_of_lt h, fun he => absurd he (by omega)⟩
      · have h1 := (hy z hz2).1
        exact ⟨by omega, fun he => absurd he (by omega)⟩
    · refine List.pairwise_cons.2
        ⟨?_, ih hys (fun w hw => hall w (List.mem_cons_of_mem _ hw))⟩
      intro z hz
      rcases mem_insertDesc x ys z hz with rfl | hz2
      · exact ⟨not_lt.1 h, fun he => hall y (List.mem_cons_self _ _) he⟩
      · exact hy z hz2

/-- `most_common` sorts by descending count and, on equal counts, keeps
any order `R` that held pairwise in the input. -/
lemma pairwise_most_common (R : (String × ℕ) → (String × ℕ) → Prop)
    (items : List (String × ℕ))
    (h : items.Pairwise (fun p q => p.2 = q.2 → R p q)) :
    (most_common items).Pairwise
      (fun p q => q.2 ≤ p.2 ∧ (p.2 = q.2 → R p q)) := by
  suffices H : ∀ l acc : List (String × ℕ),
      acc.Pairwise (fun p q => q.2 ≤ p.2 ∧ (p.2 = q.2 → R p q)) →
      (∀ p ∈ acc, ∀ q ∈ l, q.2 = p.2 → R p q) →
      l.Pairwise (fun p q => p.2 = q.2 → R p q) →
      (l.foldl (fun a x => insertDesc x a) acc).Pairwise
        (fun p q => q.2 ≤ p.2 ∧ (p.2 = q.2 → R p q)) by
    exact H items [] List.Pairwise.nil (by simp) h
  intro l
  induction l with
  | nil =>
    intro acc h1 _ _
    simpa using h1
  | cons x rest ih =>
    intro acc h1 h2 h3
    rcases List.pairwise_cons.1 h3 with ⟨hx, hrest⟩
    rw [List.foldl_cons]
    apply ih
    · exact pairwise_insertDesc R x acc h1
        (fun y hy he => h2 y hy x (List.mem_cons_self _ _) he.symm)
    · intro p hp q hq he
      rcases mem_insertDesc x acc p hp with rfl | hp2
      · exact hx q hq he.symm
      · exact h2 p hp2 q (List.mem_cons_of_mem _ hq) he
    · exact hrest

/-- The first occurrences appear in strictly increasing index order. -/
lemma dedup_indexOf_pairwise : ∀ l : List String,
    (dedupKeepFirst l).Pairwise (fun s t => l.indexOf s < l.indexOf t) := by
  intro l
  induction l with
  | nil => simp [dedupKeepFirst]
  | cons a t ih =>
    rw [show dedupKeepFirst (a :: t) =
      a :: (dedupKeepFirst t).filter (fun s => s ≠ a) from rfl]
    refine List.pairwise_cons.2 ⟨?_, ?_⟩
    · intro u hu
      have hune : u ≠ a := by simpa using (List.mem_filter.1 hu).2
      rw [List.indexOf_cons_self, List.indexOf_cons_ne t (Ne.symm hune)]
      exact Nat.succ_pos _
    · have hfp : ((dedupKeepFirst t).filter (fun s => s ≠ a)).Pairwise
          (fun s u => t.indexOf s < t.indexOf u) :=
        ih.sublist (List.filter_sublist _)
      refine hfp.imp_of_mem ?_
      intro s u hs hu hlt
      have hsne : s ≠ a := by simpa using (List.mem_filter.1 hs).2
      have hune : u ≠ a := by simpa using (List.mem_filter.1 hu).2
      rw [List.indexOf_cons_ne t (Ne.symm hsne),
        List.indexOf_cons_ne t (Ne.symm hune)]
      omega

/-- The statistics of a source list are ordered by descending count, and
entries with equal counts keep the order of their sources' first
occurrences. -/
lemma counter_sorted (l : List String) :
    (most_common (pyCounterItems l)).Pairwise
      (fun p q => q.2 ≤ p.2 ∧ (p.2 = q.2 → l.indexOf p.1 < l.indexOf q.1)) := by
  apply pairwise_most_common
  unfold pyCounterItems
  refine (List.pairwise_map).2 ?_
  refine (dedup_indexOf_pairwise l).imp ?_
  intro s u h _
  exact h

/-- C7: every stats mapping produced by the news query is ordered by
descending occurrence count, ties broken by the order in which each
source was first encountered in the article list. -/
theorem stats_sorted_stable (anns : List AnnotatedArticle) :
    (computeStats anns).Pairwise (fun p q =>
      q.2 ≤ p.2 ∧ (p.2 = q.2 →
        (anns.map (fun a => a.source)).indexOf p.1 <
          (anns.map (fun a => a.source)).indexOf q.1)) := by
  rcases anns with _ | ⟨a, as⟩
  · exact List.Pairwise.nil
  · exact counter_sorted ((a :: as).map (fun x => x.source))
